import Mathlib

/-!
Shallow embedding of the forecast aggregation core of src/src/App.tsx
(Seattle fireboat marine forecast). JS numbers are modelled as rationals
(the API payloads carry finite decimals), array indices as Int with the
same clamping the code performs, and the independently fallible
collaborators (weather payload, tide payload, water-temperature reading)
as Option inputs, matching the partial-failure policy of fetchForecast.
Local timestamps are modelled as a civil calendar record (day index,
hour, minute) with uniform 24-hour days; presentation-only locale
formatting of the shift window is kept as the underlying value.
-/

/-- Civil local date-time: a linear calendar day index plus hour and
minute of day. Sub-minute precision is elided (the code zeroes it with
setHours before any arithmetic that matters here). -/
structure DateTime where
  day : Int
  hour : Nat
  minute : Nat
deriving DecidableEq

/-- Models date.setHours(h, 0, 0, 0): set the hour, zero the rest. -/
def setHours0 (d : DateTime) (h : Nat) : DateTime :=
  { d with hour := h, minute := 0 }

/-- Models setDate(getDate() + n) on the linear day index. -/
def addDays (d : DateTime) (n : Int) : DateTime :=
  { d with day := d.day + n }

/-- Signed distance in minutes from a to b. -/
def diffMinutes (a b : DateTime) : Int :=
  (b.day - a.day) * 1440 + ((b.hour : Int) - (a.hour : Int)) * 60 +
    ((b.minute : Int) - (a.minute : Int))

/-- Shift Window Calculator, from App.tsx lines 75-83: shiftStart is now
with hours set to the shift start hour, moved back one day when
now.getHours() is before that hour; shiftEnd is shiftStart plus one day
with hours set again. The source hardcodes the configured hour as 8. -/
def shiftWindow (shiftStartHour : Nat) (now : DateTime) : DateTime × DateTime :=
  let s0 := setHours0 now shiftStartHour
  let s := if now.hour < shiftStartHour then addDays s0 (-1) else s0
  let e := setHours0 (addDays s 1) shiftStartHour
  (s, e)

/-- Fixed period descriptor, from the periods array at App.tsx lines
175-180 (fields name, start, end; end is renamed endHour because end is
a Lean keyword). -/
structure Period where
  name : String
  startHour : Int
  endHour : Int
deriving DecidableEq

def morningPeriod : Period := { name := "Morning (08:00-12:00)", startHour := 8, endHour := 12 }

def afternoonPeriod : Period := { name := "Afternoon (12:00-18:00)", startHour := 12, endHour := 18 }

def eveningPeriod : Period := { name := "Evening (18:00-00:00)", startHour := 18, endHour := 24 }

def nightPeriod : Period := { name := "Night (00:00-08:00)", startHour := 0, endHour := 8 }

def periods : List Period := [morningPeriod, afternoonPeriod, eveningPeriod, nightPeriod]

/-- Time-Series Slicer, from App.tsx lines 183-194: raw offsets are
periodHour - currentHour, with a day-forward correction
24 - currentHour + periodHour for periods starting before 8; then
startIdx is clamped up to 0 and endIdx down to seriesLen - 1. -/
def sliceIndices (seriesLen : Nat) (currentHour : Int) (p : Period) : Int × Int :=
  let startIdx :=
    if p.startHour < 8 then 24 - currentHour + p.startHour else p.startHour - currentHour
  let endIdx :=
    if p.startHour < 8 then 24 - currentHour + p.endHour else p.endHour - currentHour
  (max 0 startIdx, min ((seriesLen : Int) - 1) endIdx)

/-- ECMAScript Array.prototype.slice index resolution: negative indices
count from the end of the array (clamped at 0), nonnegative ones are
clamped at the length. -/
def jsSliceIdx (len : Nat) (i : Int) : Nat :=
  if i < 0 then ((len : Int) + i).toNat else min i.toNat len

/-- ECMAScript arr.slice(s, e): elements from resolved index s up to
resolved index e, exclusive; empty when s resolves at or past e. -/
def jsSlice {α : Type} (l : List α) (s e : Int) : List α :=
  (l.take (jsSliceIdx l.length e)).drop (jsSliceIdx l.length s)

/-- Math.min over a spread array, folded pairwise; the empty case (JS
Infinity) is unreachable in the code paths modelled here because the
aggregator is only invoked on nonempty slices. -/
def listMin : List ℚ → ℚ
  | [] => 0
  | x :: xs => xs.foldl min x

/-- Math.max over a spread array; empty case unreachable as for listMin. -/
def listMax : List ℚ → ℚ
  | [] => 0
  | x :: xs => xs.foldl max x

/-- Math.round and toFixed(0) rounding: nearest integer, ties toward
positive infinity. -/
def jsRound (q : ℚ) : Int :=
  Int.floor (q + 1 / 2)

/-- Two-digit zero-padded decimal rendering of hours and minutes. -/
def pad2 (n : Nat) : String :=
  if n < 10 then "0" ++ toString n else toString n

/-- toLocaleTimeString with hour and minute 2-digit, hour12 false:
24-hour HH:MM. -/
def formatHHMM (h m : Nat) : String :=
  pad2 h ++ ":" ++ pad2 m

/-- Number.prototype.toFixed(1) on a rational: one decimal digit,
rounding to nearest with ties toward positive infinity. -/
def toFixed1 (q : ℚ) : String :=
  let n : Int := Int.floor (q * 10 + 1 / 2)
  let a := n.natAbs
  (if n < 0 then "-" else "") ++ toString (a / 10) ++ "." ++ toString (a % 10)

/-- Number.prototype.toFixed(2) on a rational, same rounding rule. -/
def toFixed2 (q : ℚ) : String :=
  let n : Int := Int.floor (q * 100 + 1 / 2)
  let a := n.natAbs
  (if n < 0 then "-" else "") ++ toString (a / 100) ++ "." ++ pad2 (a % 100)

/-- JS template interpolation of a payload number; the payload fields so
rendered (precipitation probability, humidity) are integers, for which
JS prints the plain integer. -/
def jsNumToString (q : ℚ) : String :=
  if q.den = 1 then toString q.num else toString q

/-- metersToMiles from App.tsx lines 157-159. -/
def metersToMiles (meters : ℚ) : String :=
  toFixed1 (meters / (160934 / 100))

/-- The weather code table of getWeatherDescription, App.tsx lines
142-148. -/
def weatherCodeTable : List (Int × String) :=
  [(0, "Clear"), (1, "Mainly Clear"), (2, "Partly Cloudy"), (3, "Overcast"),
   (45, "Foggy"), (48, "Foggy"), (51, "Light Drizzle"), (53, "Drizzle"),
   (55, "Heavy Drizzle"), (61, "Light Rain"), (63, "Rain"), (65, "Heavy Rain"),
   (71, "Light Snow"), (73, "Snow"), (75, "Heavy Snow"), (80, "Light Showers"),
   (81, "Showers"), (82, "Heavy Showers"), (95, "Thunderstorm")]

/-- getWeatherDescription, App.tsx lines 141-150: object lookup with
fallback to Unknown for any unmapped code. -/
def getWeatherDescription (code : Int) : String :=
  match weatherCodeTable.lookup code with
  | some s => s
  | none => "Unknown"

def compassDirs : List String :=
  ["N", "NNE", "NE", "ENE", "E", "ESE", "SE", "SSE", "S", "SSW", "SW", "WSW",
   "W", "WNW", "NW", "NNW"]

/-- getWindDirection, App.tsx lines 152-155: dirs[Math.round(deg/22.5) %
16]; the JS remainder is truncated, so a negative bearing would index
out of bounds and render undefined. -/
def getWindDirection (degrees : ℚ) : String :=
  let i := (jsRound (degrees / (45 / 2))).tmod 16
  if 0 ≤ i then compassDirs.getD i.toNat "undefined" else "undefined"

/-- Raw tide prediction entry as consumed after JSON parsing: tide.t
pre-parsed into local hour and minute, tide.type, and tide.v pre-parsed
by parseFloat into a rational. -/
structure RawTide where
  hour : Nat
  minute : Nat
  type : String
  v : ℚ
deriving DecidableEq

/-- The Tide display record of App.tsx lines 4-8. -/
structure Tide where
  time : String
  type : String
  height : String
deriving DecidableEq

/-- One step of the tide normalizer map, App.tsx lines 113-120. -/
def normalizeTideEvent (e : RawTide) : Tide :=
  { time := formatHHMM e.hour e.minute
  , type := if e.type = "H" then "High" else "Low"
  , height := toFixed1 e.v ++ " ft" }

/-- Tide Event Normalizer, App.tsx line 113: predictions.slice(0, 4)
followed by the per-event map. -/
def normalizeTides (preds : List RawTide) : List Tide :=
  (preds.take 4).map normalizeTideEvent

/-- Current classification, App.tsx lines 161-171: inspects the first
two normalized tide events when at least two exist; the pair is
(currentSpeed, currentDir). -/
def classifyCurrent : List Tide → String × String
  | t0 :: t1 :: _ =>
    if t0.type = "Low" ∧ t1.type = "High" then ("0.5-1.5 kt", "Flood (incoming)")
    else if t0.type = "High" ∧ t1.type = "Low" then ("0.5-1.5 kt", "Ebb (outgoing)")
    else ("Variable", "Variable")
  | _ => ("Variable", "Variable")

/-- The hourly parallel arrays of the weather payload. The code reads
the shared length from the time array. -/
structure HourlySeries where
  time : List String
  temperature_2m : List ℚ
  precipitation_probability : List ℚ
  weather_code : List Int
  visibility : List ℚ
  wind_speed_10m : List ℚ
  wind_direction_10m : List ℚ
  wind_gusts_10m : List ℚ

/-- The current-instant fields of the weather payload. -/
structure CurrentWeather where
  temperature_2m : ℚ
  apparent_temperature : ℚ
  weather_code : Int
  wind_speed_10m : ℚ
  wind_direction_10m : ℚ
  wind_gusts_10m : ℚ
  pressure_msl : ℚ
  relative_humidity_2m : Int

/-- The weather payload: current fields, hourly arrays, and the first
daily sunrise and sunset timestamps pre-parsed to local hour and
minute (the code only reads index 0 of each daily array). -/
structure WeatherData where
  current : CurrentWeather
  hourly : HourlySeries
  daily_sunrise : Nat × Nat
  daily_sunset : Nat × Nat

/-- The PeriodForecast record of App.tsx lines 21-29. -/
structure PeriodForecast where
  period : String
  temp : String
  conditions : String
  wind : String
  visibility : String
  precipitation : String
  waves : String
deriving DecidableEq

/-- The all-NA summary returned for an empty period slice, App.tsx lines
196-206. -/
def naForecast (name : String) : PeriodForecast :=
  { period := name, temp := "N/A", conditions := "N/A", wind := "N/A",
    visibility := "N/A", precipitation := "N/A", waves := "N/A" }

/-- Wave-height bucket from average wind speed, App.tsx line 225. -/
def waveHeightBucket (w : ℚ) : String :=
  if w < 10 then "1-2 ft" else if w < 15 then "2-3 ft"
  else if w < 20 then "3-5 ft" else "4-6 ft"

/-- Dominant condition, App.tsx line 223: the weather code at the middle
index (floor of half the slice length); a JS out-of-bounds read would
give undefined and hence Unknown. -/
def dominantCondition (weatherCodes : List Int) : String :=
  match weatherCodes.get? (weatherCodes.length / 2) with
  | some c => getWeatherDescription c
  | none => "Unknown"

/-- Period Aggregator on a nonempty slice, App.tsx lines 208-235. -/
def aggregateSlice (hourly : HourlySeries) (startIdx endIdx : Int) (name : String) :
    PeriodForecast :=
  let temps := jsSlice hourly.temperature_2m startIdx endIdx
  let precips := jsSlice hourly.precipitation_probability startIdx endIdx
  let winds := jsSlice hourly.wind_speed_10m startIdx endIdx
  let gusts := jsSlice hourly.wind_gusts_10m startIdx endIdx
  let windDirs := jsSlice hourly.wind_direction_10m startIdx endIdx
  let vis := jsSlice hourly.visibility startIdx endIdx
  let weatherCodes := jsSlice hourly.weather_code startIdx endIdx
  let minTemp := listMin temps
  let maxTemp := listMax temps
  let maxPrecip := listMax precips
  let avgWind : Int := jsRound (winds.sum / (winds.length : ℚ))
  let maxGust := listMax gusts
  let avgWindDir := getWindDirection (windDirs.sum / (windDirs.length : ℚ))
  let minVis := listMin vis
  let dominantWeather := dominantCondition weatherCodes
  let avgWindNum : ℚ := (avgWind : ℚ)
  let waveHeight := waveHeightBucket avgWindNum
  { period := name
  , temp := toString (jsRound minTemp) ++ "-" ++ toString (jsRound maxTemp) ++ "°F"
  , conditions := dominantWeather
  , wind := toString avgWind ++ " kt " ++ avgWindDir ++ " (Gusts " ++
      toString (jsRound maxGust) ++ " kt)"
  , visibility := metersToMiles minVis ++ " mi"
  , precipitation := jsNumToString maxPrecip ++ "%"
  , waves := waveHeight }

/-- One period forecast, App.tsx lines 182-236: slice indices from the
Slicer, the NA summary when startIdx is at or past endIdx, otherwise the
aggregated slice. -/
def mkPeriodForecast (hourly : HourlySeries) (currentHour : Int) (p : Period) :
    PeriodForecast :=
  if (sliceIndices hourly.time.length currentHour p).2 ≤
      (sliceIndices hourly.time.length currentHour p).1 then
    naForecast p.name
  else
    aggregateSlice hourly (sliceIndices hourly.time.length currentHour p).1
      (sliceIndices hourly.time.length currentHour p).2 p.name

/-- The CurrentConditions record of App.tsx lines 10-19. -/
structure CurrentConditions where
  temp : String
  feelsLike : String
  conditions : String
  windSpeed : String
  windDir : String
  gusts : String
  pressure : String
  humidity : String
deriving DecidableEq

/-- Current-conditions snapshot, App.tsx lines 249-258. -/
def mkCurrentConditions (c : CurrentWeather) : CurrentConditions :=
  { temp := toString (jsRound c.temperature_2m) ++ "°F"
  , feelsLike := toString (jsRound c.apparent_temperature) ++ "°F"
  , conditions := getWeatherDescription c.weather_code
  , windSpeed := toString (jsRound c.wind_speed_10m) ++ " kt"
  , windDir := getWindDirection c.wind_direction_10m
  , gusts := toString (jsRound c.wind_gusts_10m) ++ " kt"
  , pressure := toFixed2 (c.pressure_msl / (33864 / 1000)) ++ " inHg"
  , humidity := toString c.relative_humidity_2m ++ "%" }

/-- The MarineData record of App.tsx lines 31-37. -/
structure MarineData where
  waterTemp : String
  currentSpeed : String
  currentDir : String
  sunrise : String
  sunset : String
deriving DecidableEq

/-- The conditions sub-record of ForecastData. -/
structure Conditions where
  current : CurrentConditions
  forecast : List PeriodForecast

/-- The ForecastData record of App.tsx lines 39-49; the shift window
endpoints are kept as date-time values (the source formats them with
toLocaleString purely for display). -/
structure ForecastData where
  location : String
  shiftStart : DateTime
  shiftEnd : DateTime
  tides : List Tide
  conditions : Conditions
  marine : MarineData

/-- Report Assembler: the data pipeline of fetchForecast, App.tsx lines
75-271, over pre-parsed payloads. A missing or structurally malformed
weather payload is the thrown fetch failure of lines 98-101 and aborts
the run; a missing tide payload (failed fetch or absent predictions
field, lines 106-125) degrades to an empty tide list; a missing
water-temperature reading (lines 127-139) degrades to the fixed default
of line 128. -/
def buildForecastReport (now : DateTime) (weather : Option WeatherData)
    (tidePreds : Option (List RawTide)) (waterTempReading : Option ℚ) :
    Except String ForecastData :=
  match weather with
  | none => Except.error ("Weather payload missing or malformed")
  | some w =>
    let win := shiftWindow 8 now
    let tides : List Tide :=
      match tidePreds with
      | some preds => normalizeTides preds
      | none => []
    let waterTemp : String :=
      match waterTempReading with
      | some v => toString (jsRound v) ++ "°F"
      | none => "52°F"
    let cur := classifyCurrent tides
    let currentHour : Int := (now.hour : Int)
    Except.ok
      { location := "Elliott Bay, Seattle"
      , shiftStart := win.1
      , shiftEnd := win.2
      , tides := tides
      , conditions :=
        { current := mkCurrentConditions w.current
        , forecast := periods.map (mkPeriodForecast w.hourly currentHour) }
      , marine :=
        { waterTemp := waterTemp
        , currentSpeed := cur.1
        , currentDir := cur.2
        , sunrise := formatHHMM w.daily_sunrise.1 w.daily_sunrise.2
        , sunset := formatHHMM w.daily_sunset.1 w.daily_sunset.2 } }

/-- Rank of a wave bucket in the order the thresholds produce them. -/
def waveRank (s : String) : Nat :=
  if s = "1-2 ft" then 0 else if s = "2-3 ft" then 1 else if s = "3-5 ft" then 2 else 3

/-- A 24-hour synthetic hourly series used as a concrete witness input. -/
def sampleHourly : HourlySeries :=
  { time := List.replicate 24 "t"
  , temperature_2m := List.replicate 24 (50 : ℚ)
  , precipitation_probability := List.replicate 24 (10 : ℚ)
  , weather_code := List.replicate 24 (0 : Int)
  , visibility := List.replicate 24 (10000 : ℚ)
  , wind_speed_10m := List.replicate 24 (8 : ℚ)
  , wind_direction_10m := List.replicate 24 (180 : ℚ)
  , wind_gusts_10m := List.replicate 24 (12 : ℚ) }

/-- A concrete weather payload for witnesses. -/
def sampleWeather : WeatherData :=
  { current :=
    { temperature_2m := 55, apparent_temperature := 53, weather_code := 2,
      wind_speed_10m := 9, wind_direction_10m := 200, wind_gusts_10m := 14,
      pressure_msl := 1016, relative_humidity_2m := 70 }
  , hourly := sampleHourly
  , daily_sunrise := (7, 15)
  , daily_sunset := (18, 45) }

/-- The claim C1 expects the Night slice to be the index range from 16
to 24; the code clamps endIdx to seriesLen - 1 = 23, so the produced
ranges differ at the Night period. -/
theorem C1_counterexample :
    ¬ (periods.map (sliceIndices 24 8) = [(0, 4), (4, 10), (10, 16), (16, 24)]) := by
  decide

/-- C1 (amended): for a synthetic hourly series of length 24 and
currentHour 8, the slicer produces Morning range 0 to 4, Afternoon 4 to
10, Evening 10 to 16, and Night 16 to 23 (the raw wrap-around range 16
to 24 has its end clamped to seriesLen - 1 = 23). -/
theorem C1_slices :
    periods.map (sliceIndices 24 8) = [(0, 4), (4, 10), (10, 16), (16, 23)] := by
  decide

/-- The claim C2 asserts the clamped range always satisfies the chain
0 le startIdx le endIdx le seriesLen - 1; at the Morning period with
currentHour 13 on a 24-entry series the code yields startIdx 0 and
endIdx -1, because endIdx is never clamped from below. -/
theorem C2_counterexample :
    ¬ (0 ≤ (sliceIndices sampleHourly.time.length 13 morningPeriod).1 ∧
       (sliceIndices sampleHourly.time.length 13 morningPeriod).1 ≤
         (sliceIndices sampleHourly.time.length 13 morningPeriod).2 ∧
       (sliceIndices sampleHourly.time.length 13 morningPeriod).2 ≤
         (sampleHourly.time.length : Int) - 1) := by
  decide

/-- C2 (amended): for every fixed period and currentHour in 0 to 23, the
clamped range satisfies 0 le startIdx and endIdx le seriesLen - 1, but
startIdx le endIdx can fail since endIdx is not clamped from below;
whenever endIdx le startIdx (in particular whenever they are equal) the
resulting PeriodForecast is the NA sentinel in every field. -/
theorem C2_clamped (hs : HourlySeries) (ch : Int) (p : Period)
    (hp : p ∈ periods) (h0 : 0 ≤ ch) (h23 : ch ≤ 23) :
    0 ≤ (sliceIndices hs.time.length ch p).1 ∧
    (sliceIndices hs.time.length ch p).2 ≤ (hs.time.length : Int) - 1 ∧
    ((sliceIndices hs.time.length ch p).2 ≤ (sliceIndices hs.time.length ch p).1 →
      mkPeriodForecast hs ch p = naForecast p.name) := by
  refine ⟨le_max_left 0 _, min_le_left _ _, ?_⟩
  intro hle
  unfold mkPeriodForecast
  rw [if_pos hle]

/-- Witness for C2_clamped at the Morning period with currentHour 13 on
the 24-entry sample series. -/
theorem C2_clamped_witness :
    (morningPeriod ∈ periods ∧ (0 : Int) ≤ 13 ∧ (13 : Int) ≤ 23) ∧
    (0 ≤ (sliceIndices sampleHourly.time.length 13 morningPeriod).1 ∧
     (sliceIndices sampleHourly.time.length 13 morningPeriod).2 ≤
       (sampleHourly.time.length : Int) - 1 ∧
     ((sliceIndices sampleHourly.time.length 13 morningPeriod).2 ≤
         (sliceIndices sampleHourly.time.length 13 morningPeriod).1 →
       mkPeriodForecast sampleHourly 13 morningPeriod = naForecast morningPeriod.name)) :=
  ⟨⟨by decide, by decide, by decide⟩,
   C2_clamped sampleHourly 13 morningPeriod (by decide) (by decide) (by decide)⟩

/-- C3: for every valid now and configured shift-start hour h, the shift
window has end exactly 24 hours after start, start.hour equal to h with
zeroed minutes, and start on the previous day exactly when now.hour is
before h, on the current day otherwise. -/
theorem C3_shift_window (h : Nat) (now : DateTime) (hh : h ≤ 23) (hnow : now.hour ≤ 23) :
    diffMinutes (shiftWindow h now).1 (shiftWindow h now).2 = 1440 ∧
    (shiftWindow h now).1.hour = h ∧
    (shiftWindow h now).1.minute = 0 ∧
    (shiftWindow h now).1.day = (if now.hour < h then now.day - 1 else now.day) := by
  unfold shiftWindow diffMinutes setHours0 addDays
  by_cases hc : now.hour < h <;> simp [hc] <;> ring

/-- Witness for C3_shift_window at shift-start hour 8 and a now of day
0, hour 10, minute 30. -/
theorem C3_shift_window_witness :
    ((8 : Nat) ≤ 23 ∧ (DateTime.mk 0 10 30).hour ≤ 23) ∧
    (diffMinutes (shiftWindow 8 (DateTime.mk 0 10 30)).1 (shiftWindow 8 (DateTime.mk 0 10 30)).2 = 1440 ∧
     (shiftWindow 8 (DateTime.mk 0 10 30)).1.hour = 8 ∧
     (shiftWindow 8 (DateTime.mk 0 10 30)).1.minute = 0 ∧
     (shiftWindow 8 (DateTime.mk 0 10 30)).1.day =
       (if (DateTime.mk 0 10 30).hour < 8 then (DateTime.mk 0 10 30).day - 1
        else (DateTime.mk 0 10 30).day)) :=
  ⟨⟨by decide, by decide⟩, C3_shift_window 8 (DateTime.mk 0 10 30) (by decide) (by decide)⟩

/-- C4: the pipeline yields a ForecastData exactly when the weather
payload is present and well-formed; with the weather payload in hand it
never aborts, whatever the state of the tide and water-temperature
collaborators, so the fatal error is the only aborting condition. -/
theorem C4_weather_fatal (now : DateTime) (weather : Option WeatherData)
    (tp : Option (List RawTide)) (wt : Option ℚ) :
    (∃ r, buildForecastReport now weather tp wt = Except.ok r) ↔ weather.isSome = true := by
  cases weather <;> simp [buildForecastReport]

/-- C5: with the weather payload present and the tide payload missing or
empty, the pipeline still succeeds with an empty tide list and Variable
current direction and speed, every weather-derived field populated from
the weather payload, and the fixed default water temperature when the
water-temperature reading is missing. -/
theorem C5_tide_degraded (now : DateTime) (w : WeatherData)
    (tp : Option (List RawTide)) (wt : Option ℚ)
    (htp : tp = none ∨ tp = some []) :
    ∃ r, buildForecastReport now (some w) tp wt = Except.ok r ∧
      r.tides = [] ∧
      r.marine.currentDir = "Variable" ∧
      r.marine.currentSpeed = "Variable" ∧
      r.conditions.current = mkCurrentConditions w.current ∧
      r.conditions.forecast = periods.map (mkPeriodForecast w.hourly ((now.hour : Int))) ∧
      r.marine.sunrise = formatHHMM w.daily_sunrise.1 w.daily_sunrise.2 ∧
      r.marine.sunset = formatHHMM w.daily_sunset.1 w.daily_sunset.2 ∧
      (wt = none → r.marine.waterTemp = "52°F") := by
  rcases htp with rfl | rfl <;>
    exact ⟨_, rfl, rfl, rfl, rfl, rfl, rfl, rfl, rfl,
      fun hwt => by subst hwt; rfl⟩

/-- Witness for C5_tide_degraded at the sample weather payload with both
optional collaborators absent. -/
theorem C5_tide_degraded_witness :
    ((none : Option (List RawTide)) = none ∨ (none : Option (List RawTide)) = some []) ∧
    (∃ r, buildForecastReport (DateTime.mk 0 10 0) (some sampleWeather) none none = Except.ok r ∧
      r.tides = [] ∧
      r.marine.currentDir = "Variable" ∧
      r.marine.currentSpeed = "Variable" ∧
      r.conditions.current = mkCurrentConditions sampleWeather.current ∧
      r.conditions.forecast =
        periods.map (mkPeriodForecast sampleWeather.hourly (((DateTime.mk 0 10 0).hour : Int))) ∧
      r.marine.sunrise = formatHHMM sampleWeather.daily_sunrise.1 sampleWeather.daily_sunrise.2 ∧
      r.marine.sunset = formatHHMM sampleWeather.daily_sunset.1 sampleWeather.daily_sunset.2 ∧
      ((none : Option ℚ) = none → r.marine.waterTemp = "52°F")) :=
  ⟨Or.inl rfl,
   C5_tide_degraded (DateTime.mk 0 10 0) sampleWeather none none (Or.inl rfl)⟩

/-- C6: the wave bucket follows the threshold table on average wind
speed and is monotone in it (via the rank of the bucket in the order of
the thresholds); 9, 14, 19 and 25 knots land in the four successive
buckets, and the waves field of an aggregated slice is exactly the
bucket of the rounded average of the wind-speed slice. -/
theorem C6_wave_bucket (w1 w2 : ℚ) (hle : w1 ≤ w2) :
    waveRank (waveHeightBucket w1) ≤ waveRank (waveHeightBucket w2) ∧
    waveHeightBucket 9 = "1-2 ft" ∧
    waveHeightBucket 14 = "2-3 ft" ∧
    waveHeightBucket 19 = "3-5 ft" ∧
    waveHeightBucket 25 = "4-6 ft" ∧
    (∀ (hs : HourlySeries) (s e : Int) (nm : String),
      (aggregateSlice hs s e nm).waves =
        waveHeightBucket ((jsRound ((jsSlice hs.wind_speed_10m s e).sum /
          ((jsSlice hs.wind_speed_10m s e).length : ℚ)) : ℚ))) := by
  refine ⟨?_, by decide, by decide, by decide, by decide, fun hs s e nm => rfl⟩
  unfold waveHeightBucket
  split_ifs <;> first | decide | linarith

/-- Witness for C6_wave_bucket at wind speeds 3 and 12 knots. -/
theorem C6_wave_bucket_witness :
    (3 : ℚ) ≤ 12 ∧
    (waveRank (waveHeightBucket 3) ≤ waveRank (waveHeightBucket 12) ∧
     waveHeightBucket 9 = "1-2 ft" ∧
     waveHeightBucket 14 = "2-3 ft" ∧
     waveHeightBucket 19 = "3-5 ft" ∧
     waveHeightBucket 25 = "4-6 ft" ∧
     (∀ (hs : HourlySeries) (s e : Int) (nm : String),
       (aggregateSlice hs s e nm).waves =
         waveHeightBucket ((jsRound ((jsSlice hs.wind_speed_10m s e).sum /
           ((jsSlice hs.wind_speed_10m s e).length : ℚ)) : ℚ)))) :=
  ⟨by norm_num, C6_wave_bucket 3 12 (by norm_num)⟩

/-- C7: over the normalized tide list, a Low then High leading pair
classifies as Flood with speed 0.5-1.5 kt, High then Low as Ebb with the
same speed, any other leading pair as Variable, and fewer than two
events as Variable for both fields. -/
theorem C7_current (t0 t1 : Tide) (rest tides : List Tide) :
    (t0.type = "Low" → t1.type = "High" →
      classifyCurrent (t0 :: t1 :: rest) = ("0.5-1.5 kt", "Flood (incoming)")) ∧
    (t0.type = "High" → t1.type = "Low" →
      classifyCurrent (t0 :: t1 :: rest) = ("0.5-1.5 kt", "Ebb (outgoing)")) ∧
    (¬ (t0.type = "Low" ∧ t1.type = "High") → ¬ (t0.type = "High" ∧ t1.type = "Low") →
      classifyCurrent (t0 :: t1 :: rest) = ("Variable", "Variable")) ∧
    (tides.length < 2 → classifyCurrent tides = ("Variable", "Variable")) := by
  refine ⟨?_, ?_, ?_, ?_⟩
  · intro h0 h1
    simp [classifyCurrent, h0, h1]
  · intro h0 h1
    simp [classifyCurrent, h0, h1]
  · intro h0 h1
    simp only [classifyCurrent]
    rw [if_neg h0, if_neg h1]
  · intro hlen
    match tides with
    | [] => rfl
    | [t] => rfl
    | a :: b :: r => simp at hlen; omega

/-- Concrete normalized tide events for witnesses. -/
def lowTide : Tide := { time := "06:00", type := "Low", height := "2.0 ft" }

def highTide : Tide := { time := "12:15", type := "High", height := "8.5 ft" }

/-- Witness for C7_current on concrete leading pairs: Low-High floods,
High-Low ebbs, Low-Low and a single event are Variable. -/
theorem C7_current_witness :
    classifyCurrent [lowTide, highTide] = ("0.5-1.5 kt", "Flood (incoming)") ∧
    classifyCurrent [highTide, lowTide] = ("0.5-1.5 kt", "Ebb (outgoing)") ∧
    classifyCurrent [lowTide, lowTide] = ("Variable", "Variable") ∧
    classifyCurrent [lowTide] = ("Variable", "Variable") :=
  ⟨(C7_current lowTide highTide [] []).1 rfl rfl,
   (C7_current highTide lowTide [] []).2.1 rfl rfl,
   (C7_current lowTide lowTide [] []).2.2.1 (by decide) (by decide),
   (C7_current lowTide lowTide [] [lowTide]).2.2.2 (by decide)⟩

/-- C8: the Tide Event Normalizer keeps at most four events; the event
at output position i is the normalization of the input event at the
same position i (for i below 4), so chronological input order is
preserved; and every retained event carries a 24-hour HH:MM time, a
High or Low kind, and the one-decimal height in feet of the raw event
it comes from. -/
theorem C8_normalizer (preds : List RawTide)
    (hvalid : ∀ e ∈ preds, e.hour < 24 ∧ e.minute < 60) :
    (normalizeTides preds).length ≤ 4 ∧
    (∀ i, i < 4 → (normalizeTides preds).get? i = (preds.get? i).map normalizeTideEvent) ∧
    (∀ i, 4 ≤ i → (normalizeTides preds).get? i = none) ∧
    (∀ t ∈ normalizeTides preds,
      (t.type = "High" ∨ t.type = "Low") ∧
      (∃ h m, h < 24 ∧ m < 60 ∧ t.time = pad2 h ++ ":" ++ pad2 m) ∧
      (∃ e ∈ preds, t = normalizeTideEvent e ∧ t.height = toFixed1 e.v ++ " ft")) := by
  refine ⟨?_, ?_, ?_, ?_⟩
  · simp only [normalizeTides, List.length_map, List.length_take]
    exact min_le_left _ _
  · intro i hi
    simp only [normalizeTides, List.get?_map, List.get?_take hi]
  · intro i hi
    apply List.get?_eq_none.mpr
    simp only [normalizeTides, List.length_map, List.length_take]
    omega
  · intro t ht
    simp only [normalizeTides, List.mem_map] at ht
    obtain ⟨e, he, rfl⟩ := ht
    have hep : e ∈ preds := List.mem_of_mem_take he
    obtain ⟨hh, hm⟩ := hvalid e hep
    refine ⟨?_, ⟨e.hour, e.minute, hh, hm, rfl⟩, e, hep, rfl, rfl⟩
    by_cases hty : e.type = "H"
    · left
      simp [normalizeTideEvent, hty]
    · right
      simp [normalizeTideEvent, hty]

/-- Concrete raw tide predictions (five events, valid local times) for
the normalizer witness. -/
def sampleRawTides : List RawTide :=
  [{ hour := 2, minute := 5, type := "L", v := 21 / 10 },
   { hour := 8, minute := 30, type := "H", v := 85 / 10 },
   { hour := 14, minute := 45, type := "L", v := 3 / 2 },
   { hour := 21, minute := 0, type := "H", v := 9 },
   { hour := 23, minute := 59, type := "X", v := 4 }]

/-- Witness for C8_normalizer on a five-event prediction list. -/
theorem C8_normalizer_witness :
    (∀ e ∈ sampleRawTides, e.hour < 24 ∧ e.minute < 60) ∧
    ((normalizeTides sampleRawTides).length ≤ 4 ∧
     (∀ i, i < 4 →
       (normalizeTides sampleRawTides).get? i =
         (sampleRawTides.get? i).map normalizeTideEvent) ∧
     (∀ i, 4 ≤ i → (normalizeTides sampleRawTides).get? i = none) ∧
     (∀ t ∈ normalizeTides sampleRawTides,
       (t.type = "High" ∨ t.type = "Low") ∧
       (∃ h m, h < 24 ∧ m < 60 ∧ t.time = pad2 h ++ ":" ++ pad2 m) ∧
       (∃ e ∈ sampleRawTides, t = normalizeTideEvent e ∧ t.height = toFixed1 e.v ++ " ft"))) :=
  ⟨by decide, C8_normalizer sampleRawTides (by decide)⟩

/-- C10: the normalizer maps the raw type H to High and every other raw
type value, well-formed or not, to Low; consequently no normalized event
ever carries a kind other than High or Low. -/
theorem C10_kind (e : RawTide) (preds : List RawTide) :
    (e.type ≠ "H" → (normalizeTideEvent e).type = "Low") ∧
    (e.type = "H" → (normalizeTideEvent e).type = "High") ∧
    (∀ t ∈ normalizeTides preds, t.type = "High" ∨ t.type = "Low") := by
  refine ⟨?_, ?_, ?_⟩
  · intro hty
    simp [normalizeTideEvent, hty]
  · intro hty
    simp [normalizeTideEvent, hty]
  · intro t ht
    simp only [normalizeTides, List.mem_map] at ht
    obtain ⟨x, _, rfl⟩ := ht
    by_cases hty : x.type = "H"
    · left
      simp [normalizeTideEvent, hty]
    · right
      simp [normalizeTideEvent, hty]

/-- Witness for C10_kind: the malformed raw type X normalizes to Low,
the raw type H to High, and the sample prediction list only yields High
or Low kinds. -/
theorem C10_kind_witness :
    (normalizeTideEvent (RawTide.mk 0 0 "X" 0)).type = "Low" ∧
    (normalizeTideEvent (RawTide.mk 0 0 "H" 0)).type = "High" ∧
    (∀ t ∈ normalizeTides sampleRawTides, t.type = "High" ∨ t.type = "Low") :=
  ⟨(C10_kind (RawTide.mk 0 0 "X" 0) sampleRawTides).1 (by decide),
   (C10_kind (RawTide.mk 0 0 "H" 0) sampleRawTides).2.1 (by decide),
   (C10_kind (RawTide.mk 0 0 "X" 0) sampleRawTides).2.2⟩

/-- Length of a JS slice with a nonnegative start strictly below an end
bounded by the array length. -/
theorem jsSlice_length {α : Type} (l : List α) (s e : Int)
    (hs0 : 0 ≤ s) (hse : s < e) (he : e ≤ (l.length : Int)) :
    (jsSlice l s e).length = e.toNat - s.toNat := by
  unfold jsSlice jsSliceIdx
  rw [if_neg (by omega), if_neg (by omega)]
  simp only [List.length_drop, List.length_take]
  omega

/-- A list element read with a default equals the optional read when the
index is in bounds. -/
theorem getD_eq_of_get?_eq_some {α : Type} (l : List α) (i : Nat) (d c : α)
    (h : l.get? i = some c) : l.getD i d = c := by
  rw [List.get?_eq_getElem?] at h
  simp [List.getD, h]

/-- A lookup over an association list misses exactly when the key is
absent from the key column. -/
theorem lookup_eq_none_of_not_mem_keys {β : Type} (l : List (Int × β)) (a : Int)
    (h : a ∉ l.map Prod.fst) : List.lookup a l = none := by
  induction l with
  | nil => rfl
  | cons p t ih =>
    obtain ⟨k, v⟩ := p
    simp only [List.map_cons, List.mem_cons] at h
    push_neg at h
    have hk : (a == k) = false := by
      simp only [beq_eq_false_iff_ne, ne_eq]
      exact h.1
    simp only [List.lookup, hk]
    exact ih h.2

/-- The dominant condition of a nonempty weather-code list is the code
at the middle index mapped through the description table. -/
theorem dominantCondition_eq (codes : List Int) (hpos : 0 < codes.length) :
    dominantCondition codes =
      getWeatherDescription (codes.getD (codes.length / 2) 0) := by
  have hlt : codes.length / 2 < codes.length := Nat.div_lt_self hpos (by norm_num)
  have hget := List.get?_eq_get hlt
  unfold dominantCondition
  rw [hget, getD_eq_of_get?_eq_some codes _ 0 _ hget]

/-- C9: for a nonempty period slice over parallel arrays of equal
length, the conditions field of the summary is the weather code at the
middle index of the sliced code list mapped through the fixed table;
every code present in the table maps to its label and every code absent
from it maps to Unknown. -/
theorem C9_dominant (hs : HourlySeries) (ch : Int) (p : Period)
    (hlen : hs.weather_code.length = hs.time.length)
    (hne : (sliceIndices hs.time.length ch p).1 < (sliceIndices hs.time.length ch p).2) :
    ((mkPeriodForecast hs ch p).conditions =
      getWeatherDescription
        ((jsSlice hs.weather_code (sliceIndices hs.time.length ch p).1
            (sliceIndices hs.time.length ch p).2).getD
          ((jsSlice hs.weather_code (sliceIndices hs.time.length ch p).1
              (sliceIndices hs.time.length ch p).2).length / 2) 0)) ∧
    (∀ c lbl, (c, lbl) ∈ weatherCodeTable → getWeatherDescription c = lbl) ∧
    (∀ c, c ∉ weatherCodeTable.map Prod.fst → getWeatherDescription c = "Unknown") := by
  refine ⟨?_, ?_, ?_⟩
  · have hs0 : 0 ≤ (sliceIndices hs.time.length ch p).1 := le_max_left 0 _
    have hetop : (sliceIndices hs.time.length ch p).2 ≤ (hs.time.length : Int) - 1 :=
      min_le_left _ _
    have hlenq : (jsSlice hs.weather_code (sliceIndices hs.time.length ch p).1
        (sliceIndices hs.time.length ch p).2).length =
        (sliceIndices hs.time.length ch p).2.toNat -
          (sliceIndices hs.time.length ch p).1.toNat := by
      apply jsSlice_length _ _ _ hs0 hne
      rw [hlen]
      omega
    have hpos : 0 < (jsSlice hs.weather_code (sliceIndices hs.time.length ch p).1
        (sliceIndices hs.time.length ch p).2).length := by
      rw [hlenq]
      omega
    have hcond : (mkPeriodForecast hs ch p).conditions =
        dominantCondition (jsSlice hs.weather_code (sliceIndices hs.time.length ch p).1
          (sliceIndices hs.time.length ch p).2) := by
      unfold mkPeriodForecast
      rw [if_neg (not_le.mpr hne)]
      rfl
    rw [hcond, dominantCondition_eq _ hpos]

  · intro c lbl hmem
    fin_cases hmem <;> rfl
  · intro c hc
    unfold getWeatherDescription
    rw [lookup_eq_none_of_not_mem_keys _ _ hc]

/-- Witness for C9_dominant at the sample series, currentHour 8 and the
Morning period. -/
theorem C9_dominant_witness :
    (sampleHourly.weather_code.length = sampleHourly.time.length ∧
     (sliceIndices sampleHourly.time.length 8 morningPeriod).1 <
       (sliceIndices sampleHourly.time.length 8 morningPeriod).2) ∧
    (((mkPeriodForecast sampleHourly 8 morningPeriod).conditions =
      getWeatherDescription
        ((jsSlice sampleHourly.weather_code (sliceIndices sampleHourly.time.length 8 morningPeriod).1
            (sliceIndices sampleHourly.time.length 8 morningPeriod).2).getD
          ((jsSlice sampleHourly.weather_code (sliceIndices sampleHourly.time.length 8 morningPeriod).1
              (sliceIndices sampleHourly.time.length 8 morningPeriod).2).length / 2) 0)) ∧
     (∀ c lbl, (c, lbl) ∈ weatherCodeTable → getWeatherDescription c = lbl) ∧
     (∀ c, c ∉ weatherCodeTable.map Prod.fst → getWeatherDescription c = "Unknown")) :=
  ⟨⟨by decide, by decide⟩, C9_dominant sampleHourly 8 morningPeriod (by decide) (by decide)⟩
